import Mathlib

/-!
Verification of the credit-metering and billing-reconciliation core of the
picads backend (`app/services/generation.py`, `app/services/credits.py`,
`app/config.py`, `app/models.py`).

Python integers are unbounded, so every counter is modelled as `Int`.
Fallible steps return `Except`/`Option`.  The external Stripe metered-billing
call is modelled by an oracle argument (`StripeOutcome`) saying what the call
would do if it were executed; whether the call was actually attempted is
reified as a boolean in the result.
-/

/-- Outcome the external `stripe.billing.MeterEvent.create` call would have if
it were executed: it can succeed, raise a `stripe.StripeError` (the only
exception class caught by `_handle_billing`'s `except` clause), or raise any
other Python exception. -/
inductive StripeOutcome where
  | success : StripeOutcome
  | stripeError (msg : String) : StripeOutcome
  | otherError (msg : String) : StripeOutcome
deriving DecidableEq, Repr

/-- Row of the `credits` table (`app/models.py`, class `Credits`): the per-user
ledger counters.  Timestamp and key columns are not modelled. -/
structure Credits where
  included_credits : Int
  available_credits : Int
  metered_credits : Int
  total_used : Int
deriving DecidableEq, Repr

/-- Row of the `profiles` table (`app/models.py`, class `Profile`), restricted
to the two columns the generation service reads. -/
structure Profile where
  stripe_customer_id : Option String
  payment_status : String
deriving DecidableEq, Repr

/-- Row of the `user_ads` table used by the draft/save flow.
Modelled from the spec: the draft flag on the ad record.  `generation.py` and
`routes/ads.py` read and write a `UserAds.is_draft` column and the spec
describes the `Draft → Saved` transition, but the (stale) `app/models.py`
snapshot under `src/` omits the column (it also omits the `UserKeys` model
that `create_tables.py` imports from the same file). -/
structure UserAds where
  ad_type : String
  is_draft : Bool
  tags : Option String
deriving DecidableEq, Repr

/-- Row of the `usage_logs` table, restricted to the columns the billing flow
uses.  Modelled from the spec: the `is_draft` column (provisional vs
finalized log) is missing from the stale `app/models.py` snapshot but is
required by `generation.py`'s draft/save flow and described by the spec. -/
structure UsageLog where
  ad_type : String
  credits_used : Int
  source : String
  is_draft : Bool
deriving DecidableEq, Repr

/-- `CreditsService.create_credits` (`app/services/credits.py`): a fresh
ledger row starts with `available_credits = included_credits`,
`metered_credits = 0`, `total_used = 0`. -/
def create_credits (included_credits : Int := 1000) : Credits :=
  { included_credits := included_credits
    available_credits := included_credits
    metered_credits := 0
    total_used := 0 }

/-- `shortage = max(0, credit_cost - credits.available_credits)` computed at
the top of `_handle_billing` (`generation.py`). -/
def billing_shortage (credits : Credits) (credit_cost : Int) : Int :=
  max 0 (credit_cost - credits.available_credits)

/-- `credits_from_available = min(credits.available_credits, credit_cost)`
computed in `_update_credits` (`generation.py`). -/
def credits_from_available (credits : Credits) (credit_cost : Int) : Int :=
  min credits.available_credits credit_cost

/-- The dict `{"metered_credits": ..., "shortage": ...}` returned by
`_handle_billing`. -/
structure BillingResult where
  metered_credits : Option Int
  shortage : Int
deriving DecidableEq, Repr

/-- Result of running `_handle_billing`: either its returned dict or an
uncaught Python exception, plus (reified) whether the external Stripe call
was actually attempted. -/
structure BillingStep where
  result : Except String BillingResult
  external_attempted : Bool
deriving Repr

/-- Python truthiness of an `Optional[str]` (`if stripe_customer_id:`):
`None` and the empty string are falsy. -/
def pyTruthyStr : Option String → Bool
  | none => false
  | some s => s ≠ ""

/-- `AdGenerationService._handle_billing` (`generation.py`): compute the
shortage against the ledger snapshot; if it is positive and a truthy
`stripe_customer_id` is present, attempt the external meter event.  The
`except stripe.StripeError` clause catches exactly `StripeError` (both the
"No active meter found" case and every other `StripeError`) and continues;
any other exception propagates to the caller. -/
def handle_billing (credits : Credits) (credit_cost : Int)
    (stripe_customer_id : Option String) (stripe : StripeOutcome) :
    BillingStep :=
  let shortage := billing_shortage credits credit_cost
  let metered_credits : Option Int := if 0 < shortage then some shortage else none
  if 0 < shortage then
    if pyTruthyStr stripe_customer_id then
      match stripe with
      | .success => ⟨.ok ⟨metered_credits, shortage⟩, true⟩
      | .stripeError _ => ⟨.ok ⟨metered_credits, shortage⟩, true⟩
      | .otherError msg => ⟨.error msg, true⟩
    else
      ⟨.ok ⟨metered_credits, shortage⟩, false⟩
  else
    ⟨.ok ⟨metered_credits, shortage⟩, false⟩

/-- `AdGenerationService._update_credits` (`generation.py`): deduct
`min(available_credits, credit_cost)` from `available_credits`, add the
shortage to `metered_credits` when positive, and always add `credit_cost` to
`total_used`. -/
def update_credits (credits : Credits) (credit_cost shortage : Int) : Credits :=
  let cfa := credits_from_available credits credit_cost
  { credits with
    available_credits := credits.available_credits - cfa
    metered_credits :=
      if 0 < shortage then credits.metered_credits + shortage
      else credits.metered_credits
    total_used := credits.total_used + credit_cost }

/-- `AD_PRICING` (`app/config.py`): the static cost table. -/
def AD_PRICING (ad_type : String) : Option Int :=
  if ad_type = "text_ad" then some 5
  else if ad_type = "image_ad" then some 10
  else if ad_type = "video_ad" then some 1005
  else none

/-- Python falsiness of `AD_PRICING.get(...)` (`if not credit_cost:`):
`None` and `0` are both treated as an invalid ad type. -/
def pyFalsyOptInt : Option Int → Bool
  | none => true
  | some n => n == 0

/-- The rows of the single user's database that `generate_ad` /
`generate_ad_preview` touch: the user's profile row and credits row (each
`scalar_one_or_none`, hence `Option`). -/
structure GenDb where
  profile : Option Profile
  credits : Option Credits
deriving DecidableEq, Repr

/-- The `BillingInfo` schema (`app/schemas/base.py`). -/
structure BillingInfo where
  credits_used : Int
  metered_credits : Option Int
deriving DecidableEq, Repr

/-- Observable outcome of a `generate_ad` call: the error code of the
returned `ErrorResponse` (or `none` on success), the user's credits row after
the call, whether the external Stripe call was attempted, and the billing
info of the success payload. -/
structure GenResult where
  error_code : Option String
  credits : Option Credits
  external_attempted : Bool
  billing_info : Option BillingInfo
deriving Repr

/-- `AdGenerationService.generate_ad` (`generation.py`).  Control flow in
source order: profile lookup, payment-status check, cost lookup
(`if not credit_cost`), credits lookup, content generation and storage
(modelled by the `storeOk` flag: a storage failure raises and is caught by
the outer `except Exception`, yielding `INTERNAL_ERROR` before billing),
`_handle_billing`, `_update_credits`.  An uncaught exception from
`_handle_billing` is also caught by the outer handler, after the Stripe call
was attempted but before any ledger mutation. -/
def generate_ad (db : GenDb) (ad_type : String) (storeOk : Bool)
    (stripe : StripeOutcome) : GenResult :=
  match db.profile with
  | none => ⟨some "PROFILE_NOT_FOUND", db.credits, false, none⟩
  | some profile =>
    if profile.payment_status ≠ "active" then
      ⟨some "PAYMENT_INACTIVE", db.credits, false, none⟩
    else
      let credit_cost := AD_PRICING ad_type
      if pyFalsyOptInt credit_cost then
        ⟨some "INVALID_AD_TYPE", db.credits, false, none⟩
      else
        let cost := credit_cost.getD 0
        match db.credits with
        | none => ⟨some "CREDITS_NOT_FOUND", db.credits, false, none⟩
        | some credits =>
          if storeOk = false then
            ⟨some "INTERNAL_ERROR", some credits, false, none⟩
          else
            let step := handle_billing credits cost profile.stripe_customer_id stripe
            match step.result with
            | .error _ =>
              ⟨some "INTERNAL_ERROR", some credits, step.external_attempted, none⟩
            | .ok br =>
              let credits' := update_credits credits cost br.shortage
              ⟨none, some credits', step.external_attempted,
                some ⟨cost, br.metered_credits⟩⟩

/-- Observable outcome of a `generate_ad_preview` call: error code, the
credits row after the call, whether any external billing call was attempted
(the method contains no Stripe call), and the draft ad / draft usage-log rows
it created. -/
structure PreviewResult where
  error_code : Option String
  credits : Option Credits
  external_attempted : Bool
  new_ad : Option UserAds
  new_usage_log : Option UsageLog
deriving Repr

/-- `AdGenerationService.generate_ad_preview` (`generation.py`): profile
lookup, payment-status check, cost lookup, content generation/storage
(`storeOk`), then `_create_user_ad_draft` (ad with `is_draft=True`, tags
`"{ad_type},generated,draft"`) and `_create_usage_log_draft` (log with
`is_draft=True`, `source="preview_generation"`, `credits_used=cost`).  The
method never reads or writes the credits row and contains no Stripe call. -/
def generate_ad_preview (db : GenDb) (ad_type : String) (storeOk : Bool) :
    PreviewResult :=
  match db.profile with
  | none => ⟨some "PROFILE_NOT_FOUND", db.credits, false, none, none⟩
  | some profile =>
    if profile.payment_status ≠ "active" then
      ⟨some "PAYMENT_INACTIVE", db.credits, false, none, none⟩
    else
      let credit_cost := AD_PRICING ad_type
      if pyFalsyOptInt credit_cost then
        ⟨some "INVALID_AD_TYPE", db.credits, false, none, none⟩
      else
        let cost := credit_cost.getD 0
        if storeOk = false then
          ⟨some "INTERNAL_ERROR", db.credits, false, none, none⟩
        else
          let ad : UserAds :=
            { ad_type := ad_type
              is_draft := true
              tags := some (ad_type ++ ",generated,draft") }
          let usage_log : UsageLog :=
            { ad_type := ad_type
              credits_used := cost
              source := "preview_generation"
              is_draft := true }
          ⟨none, db.credits, false, some ad, some usage_log⟩

/-- The rows of the single user's database that `save_ad` touches: profile,
credits, the `user_ads` row with the requested id (if any), and the
`usage_logs` row linked to that ad (if any; the source query additionally
filters `is_draft == True`, applied inside `save_ad`). -/
structure SaveDb where
  profile : Option Profile
  credits : Option Credits
  ad : Option UserAds
  usage_log : Option UsageLog
deriving DecidableEq, Repr

/-- Observable outcome of a `save_ad` call: error code, the credits row, ad
row and usage-log row after the call, and whether the external Stripe call
was attempted. -/
structure SaveResult where
  error_code : Option String
  credits : Option Credits
  ad : Option UserAds
  usage_log : Option UsageLog
  external_attempted : Bool
deriving Repr

/-- `AdGenerationService.save_ad` (`generation.py`).  Control flow in source
order: ad lookup (`AD_NOT_FOUND`), draft check (`AD_ALREADY_SAVED`),
draft-usage-log lookup (`USAGE_LOG_NOT_FOUND`), profile lookup (no error if
missing: `profile.stripe_customer_id if profile else None`), credits lookup
(`CREDITS_NOT_FOUND`), `_handle_billing` with the log's `credits_used`,
`_update_credits`, then flip `is_draft` on the log and the ad and rewrite the
ad's tags (`tags.replace("draft", "saved") if ad.tags else "saved"`).  An
uncaught exception from `_handle_billing` hits the outer `except Exception`
before any mutation. -/
def save_ad (db : SaveDb) (stripe : StripeOutcome) : SaveResult :=
  match db.ad with
  | none => ⟨some "AD_NOT_FOUND", db.credits, db.ad, db.usage_log, false⟩
  | some ad =>
    if ad.is_draft = false then
      ⟨some "AD_ALREADY_SAVED", db.credits, db.ad, db.usage_log, false⟩
    else
      match db.usage_log.bind (fun l => if l.is_draft then some l else none) with
      | none => ⟨some "USAGE_LOG_NOT_FOUND", db.credits, db.ad, db.usage_log, false⟩
      | some usage_log =>
        let stripe_customer_id :=
          match db.profile with
          | some p => p.stripe_customer_id
          | none => none
        match db.credits with
        | none => ⟨some "CREDITS_NOT_FOUND", db.credits, db.ad, db.usage_log, false⟩
        | some credits =>
          let step := handle_billing credits usage_log.credits_used
            stripe_customer_id stripe
          match step.result with
          | .error _ =>
            ⟨some "INTERNAL_ERROR", some credits, db.ad, db.usage_log,
              step.external_attempted⟩
          | .ok br =>
            let credits' := update_credits credits usage_log.credits_used br.shortage
            let usage_log' := { usage_log with is_draft := false }
            let ad' :=
              { ad with
                is_draft := false
                tags :=
                  match ad.tags with
                  | some t => some (t.replace "draft" "saved")
                  | none => some "saved" }
            ⟨none, some credits', some ad', some usage_log', step.external_attempted⟩

/-- The ledger invariant of the spec: `0 ≤ available_credits ≤ included_credits`. -/
def LedgerInv (c : Credits) : Prop :=
  0 ≤ c.available_credits ∧ c.available_credits ≤ c.included_credits

/-- C1: for every ledger snapshot with `available_credits ≥ 0` and every cost
`C > 0`, the amount `_update_credits` deducts from `available_credits`
(`min(available_credits, C)`) plus the shortage `_handle_billing` computes
(`max(0, C - available_credits)`) equals `C`. -/
theorem deduct_plus_shortage_eq_cost (credits : Credits) (C : Int)
    (h0 : 0 ≤ credits.available_credits) (h1 : 0 < C) :
    (credits.available_credits
        - (update_credits credits C (billing_shortage credits C)).available_credits)
      + billing_shortage credits C = C := by
  simp only [update_credits, credits_from_available, billing_shortage]
  omega

/-- Witness for `deduct_plus_shortage_eq_cost` at the ledger of Scenario 2
(`available_credits = 3`, `C = 10`). -/
theorem deduct_plus_shortage_eq_cost_witness :
    ((⟨1000, 3, 0, 0⟩ : Credits).available_credits
        - (update_credits ⟨1000, 3, 0, 0⟩ 10
            (billing_shortage ⟨1000, 3, 0, 0⟩ 10)).available_credits)
      + billing_shortage ⟨1000, 3, 0, 0⟩ 10 = 10 :=
  deduct_plus_shortage_eq_cost ⟨1000, 3, 0, 0⟩ 10 (by decide) (by decide)

/-- C2: ledger creation (`create_credits`, which sets
`available_credits = included_credits`) establishes the invariant
`0 ≤ available_credits ≤ included_credits`, and every debit applied by
`_update_credits` with a non-negative cost preserves it: the deduction never
drives `available_credits` below 0 and nothing increases it. -/
theorem ledger_invariant_preserved :
    (∀ included : Int, 0 ≤ included → LedgerInv (create_credits included)) ∧
    (∀ (credits : Credits) (C s : Int), LedgerInv credits → 0 ≤ C →
        LedgerInv (update_credits credits C s)) := by
  constructor
  · intro included h
    exact ⟨h, le_refl _⟩
  · intro credits C s hinv hC
    obtain ⟨h0, h1⟩ := hinv
    constructor
    · simp only [update_credits, credits_from_available]
      omega
    · simp only [update_credits, credits_from_available]
      omega

/-- Witness for `ledger_invariant_preserved`: creation with 1000 included
credits, and the Scenario 2 debit (`available = 3`, `C = 10`, shortage 7). -/
theorem ledger_invariant_preserved_witness :
    LedgerInv (create_credits 1000) ∧ LedgerInv (update_credits ⟨1000, 3, 0, 0⟩ 10 7) :=
  ⟨ledger_invariant_preserved.1 1000 (by decide),
   ledger_invariant_preserved.2 ⟨1000, 3, 0, 0⟩ 10 7
     (by unfold LedgerInv; exact ⟨by decide, by decide⟩) (by decide)⟩

/-- C3: `_update_credits` adds the requested cost `C` to `total_used`
unconditionally — for every ledger state and every shortage value. -/
theorem total_used_accumulates (credits : Credits) (C s : Int) :
    (update_credits credits C s).total_used = credits.total_used + C := rfl

/-- Helper: whenever `_handle_billing` returns (rather than raising), the
`shortage` entry of its result dict is `max(0, C - available_credits)`. -/
theorem handle_billing_ok_shortage (credits : Credits) (C : Int)
    (cid : Option String) (o : StripeOutcome) (r : BillingResult)
    (h : (handle_billing credits C cid o).result = .ok r) :
    r.shortage = billing_shortage credits C := by
  revert h
  unfold handle_billing
  by_cases h1 : 0 < billing_shortage credits C <;>
    by_cases h2 : pyTruthyStr cid <;>
      cases o <;>
        simp [h1, h2] <;>
          (intro h; rw [← h])

/-- C4: for every debit of cost `C`, whenever `_handle_billing` returns a
result (external call not attempted, succeeded, or failed with a caught
`StripeError`), feeding its shortage into `_update_credits` increases
`metered_credits` by exactly `max(0, C - available_credits_before)`. -/
theorem metered_accumulates_of_ok (credits : Credits) (C : Int)
    (cid : Option String) (o : StripeOutcome) (r : BillingResult)
    (h : (handle_billing credits C cid o).result = .ok r) :
    (update_credits credits C r.shortage).metered_credits
      = credits.metered_credits + billing_shortage credits C := by
  rw [handle_billing_ok_shortage credits C cid o r h]
  simp only [update_credits, billing_shortage]
  split <;> omega

/-- Witness for `metered_accumulates_of_ok` at Scenario 4: `available = 3`,
`C = 10`, a customer id present, and the external call failing with the
"meter not configured" `StripeError`. -/
theorem metered_accumulates_of_ok_witness :
    (update_credits ⟨1000, 3, 0, 0⟩ 10 (BillingResult.mk (some 7) 7).shortage).metered_credits
      = (⟨1000, 3, 0, 0⟩ : Credits).metered_credits + billing_shortage ⟨1000, 3, 0, 0⟩ 10 :=
  metered_accumulates_of_ok ⟨1000, 3, 0, 0⟩ 10 (some "cus_123")
    (.stripeError "No active meter found") ⟨some 7, 7⟩ rfl

/-- C5 counterexample: at a concrete debit (`available = 3`, `C = 10`,
customer id present) where the external metered-billing call raises an
exception that is not a `stripe.StripeError`, the error is NOT caught inside
`_handle_billing` (it escapes as an uncaught exception), and in `generate_ad`
the debit does not complete: the outer handler returns `INTERNAL_ERROR` and
the ledger is unchanged — refuting "any error whatsoever is caught and the
debit still completes". -/
theorem other_error_escapes_handle_billing :
    (handle_billing ⟨1000, 3, 0, 0⟩ 10 (some "cus_123")
        (.otherError "connection reset")).result = .error "connection reset" ∧
    (generate_ad ⟨some ⟨some "cus_123", "active"⟩, some ⟨1000, 3, 0, 0⟩⟩ "image_ad"
        true (.otherError "connection reset")).error_code = some "INTERNAL_ERROR" ∧
    (generate_ad ⟨some ⟨some "cus_123", "active"⟩, some ⟨1000, 3, 0, 0⟩⟩ "image_ad"
        true (.otherError "connection reset")).credits = some ⟨1000, 3, 0, 0⟩ :=
  ⟨rfl, rfl, rfl⟩

/-- C5 amended: for every debit where the external metered-billing call
raises a `stripe.StripeError` (including the "meter not configured"
condition), the error is caught inside `_handle_billing` and never surfaces:
the method returns its normal result dict (shortage and metered split
unchanged), and feeding that shortage into `_update_credits` still increments
`metered_credits` by the shortage.  (Exceptions other than `StripeError`
propagate and abort the debit.) -/
theorem stripe_error_isolated (credits : Credits) (C : Int)
    (cid : Option String) (msg : String) :
    (handle_billing credits C cid (.stripeError msg)).result
      = .ok ⟨(if 0 < billing_shortage credits C then some (billing_shortage credits C)
              else none),
             billing_shortage credits C⟩ ∧
    (update_credits credits C (billing_shortage credits C)).metered_credits
      = credits.metered_credits + billing_shortage credits C := by
  constructor
  · unfold handle_billing
    by_cases h1 : 0 < billing_shortage credits C <;>
      by_cases h2 : pyTruthyStr cid <;>
        simp [h1, h2]
  · simp only [update_credits, billing_shortage]
    split <;> omega

/-- C6: for every debit with a positive shortage and no billing-account
reference (`stripe_customer_id = None`), `_handle_billing` attempts no
external event yet returns the shortage, and `_update_credits` still records
it locally: `metered_credits += shortage`, `total_used += C`, and
`available_credits` drops by `min(available_credits, C)`. -/
theorem shortage_without_account_recorded_locally (credits : Credits) (C : Int)
    (o : StripeOutcome) (h : 0 < billing_shortage credits C) :
    (handle_billing credits C none o).external_attempted = false ∧
    (handle_billing credits C none o).result
      = .ok ⟨some (billing_shortage credits C), billing_shortage credits C⟩ ∧
    (update_credits credits C (billing_shortage credits C)).metered_credits
      = credits.metered_credits + billing_shortage credits C ∧
    (update_credits credits C (billing_shortage credits C)).total_used
      = credits.total_used + C ∧
    (update_credits credits C (billing_shortage credits C)).available_credits
      = credits.available_credits - credits_from_available credits C := by
  refine ⟨?_, ?_, ?_, rfl, rfl⟩
  · unfold handle_billing
    simp [h, pyTruthyStr]
  · unfold handle_billing
    simp [h, pyTruthyStr]
  · simp only [update_credits, billing_shortage]
    split <;> omega

/-- Witness for `shortage_without_account_recorded_locally` at Scenario 3:
`available_credits = 0`, `C = 25`, no billing account. -/
theorem shortage_without_account_recorded_locally_witness :
    (handle_billing ⟨1000, 0, 0, 0⟩ 25 none .success).external_attempted = false ∧
    (handle_billing ⟨1000, 0, 0, 0⟩ 25 none .success).result
      = .ok ⟨some (billing_shortage ⟨1000, 0, 0, 0⟩ 25), billing_shortage ⟨1000, 0, 0, 0⟩ 25⟩ ∧
    (update_credits ⟨1000, 0, 0, 0⟩ 25 (billing_shortage ⟨1000, 0, 0, 0⟩ 25)).metered_credits
      = (⟨1000, 0, 0, 0⟩ : Credits).metered_credits + billing_shortage ⟨1000, 0, 0, 0⟩ 25 ∧
    (update_credits ⟨1000, 0, 0, 0⟩ 25 (billing_shortage ⟨1000, 0, 0, 0⟩ 25)).total_used
      = (⟨1000, 0, 0, 0⟩ : Credits).total_used + 25 ∧
    (update_credits ⟨1000, 0, 0, 0⟩ 25 (billing_shortage ⟨1000, 0, 0, 0⟩ 25)).available_credits
      = (⟨1000, 0, 0, 0⟩ : Credits).available_credits
          - credits_from_available ⟨1000, 0, 0, 0⟩ 25 :=
  shortage_without_account_recorded_locally ⟨1000, 0, 0, 0⟩ 25 .success (by decide)

/-- C7: for every `generate_ad` request whose ad-type tag is not in
`AD_PRICING` (and which passes the earlier profile/payment checks that
precede the lookup), the call fails with `INVALID_AD_TYPE`, the ledger row is
identical before and after, and no external billing event is attempted. -/
theorem invalid_ad_type_no_mutation (db : GenDb) (profile : Profile)
    (ad_type : String) (storeOk : Bool) (o : StripeOutcome)
    (hp : db.profile = some profile) (hact : profile.payment_status = "active")
    (hmiss : AD_PRICING ad_type = none) :
    (generate_ad db ad_type storeOk o).error_code = some "INVALID_AD_TYPE" ∧
    (generate_ad db ad_type storeOk o).credits = db.credits ∧
    (generate_ad db ad_type storeOk o).external_attempted = false := by
  unfold generate_ad
  rw [hp]
  simp [hact, hmiss, pyFalsyOptInt]

/-- Witness for `invalid_ad_type_no_mutation`: an active profile and the
unknown tag `"banner_ad"`. -/
theorem invalid_ad_type_no_mutation_witness :
    (generate_ad ⟨some ⟨some "cus_123", "active"⟩, some ⟨1000, 1000, 0, 0⟩⟩
        "banner_ad" true .success).error_code = some "INVALID_AD_TYPE" ∧
    (generate_ad ⟨some ⟨some "cus_123", "active"⟩, some ⟨1000, 1000, 0, 0⟩⟩
        "banner_ad" true .success).credits = some ⟨1000, 1000, 0, 0⟩ ∧
    (generate_ad ⟨some ⟨some "cus_123", "active"⟩, some ⟨1000, 1000, 0, 0⟩⟩
        "banner_ad" true .success).external_attempted = false :=
  invalid_ad_type_no_mutation ⟨some ⟨some "cus_123", "active"⟩, some ⟨1000, 1000, 0, 0⟩⟩
    ⟨some "cus_123", "active"⟩ "banner_ad" true .success rfl rfl (by decide)

/-- C8: `save_ad` on an ad that is no longer in draft state fails with
`AD_ALREADY_SAVED`, leaves the ledger row unchanged, and attempts no
billing. -/
theorem already_saved_rejected (db : SaveDb) (ad : UserAds) (o : StripeOutcome)
    (had : db.ad = some ad) (hnd : ad.is_draft = false) :
    (save_ad db o).error_code = some "AD_ALREADY_SAVED" ∧
    (save_ad db o).credits = db.credits ∧
    (save_ad db o).external_attempted = false := by
  unfold save_ad
  rw [had]
  simp [hnd]

/-- Witness for `already_saved_rejected`: Scenario 5, a save on an
already-saved ad. -/
theorem already_saved_rejected_witness :
    (save_ad ⟨some ⟨some "cus_123", "active"⟩, some ⟨1000, 3, 7, 17⟩,
        some ⟨"text_ad", false, some "text_ad,generated,saved"⟩,
        some ⟨"text_ad", 5, "preview_generation", false⟩⟩ .success).error_code
      = some "AD_ALREADY_SAVED" ∧
    (save_ad ⟨some ⟨some "cus_123", "active"⟩, some ⟨1000, 3, 7, 17⟩,
        some ⟨"text_ad", false, some "text_ad,generated,saved"⟩,
        some ⟨"text_ad", 5, "preview_generation", false⟩⟩ .success).credits
      = some ⟨1000, 3, 7, 17⟩ ∧
    (save_ad ⟨some ⟨some "cus_123", "active"⟩, some ⟨1000, 3, 7, 17⟩,
        some ⟨"text_ad", false, some "text_ad,generated,saved"⟩,
        some ⟨"text_ad", 5, "preview_generation", false⟩⟩ .success).external_attempted
      = false :=
  already_saved_rejected _ ⟨"text_ad", false, some "text_ad,generated,saved"⟩
    .success rfl rfl

/-- C9: a `generate_ad_preview` call never mutates the ledger and never
attempts an external billing call (in every branch, including errors), and
the ad and usage-log records a successful preview creates are both tagged as
draft. -/
theorem preview_no_ledger_mutation (db : GenDb) (ad_type : String) (storeOk : Bool)
    (ad : UserAds) (usage_log : UsageLog)
    (hok : (generate_ad_preview db ad_type storeOk).error_code = none)
    (had : (generate_ad_preview db ad_type storeOk).new_ad = some ad)
    (hlog : (generate_ad_preview db ad_type storeOk).new_usage_log = some usage_log) :
    (generate_ad_preview db ad_type storeOk).credits = db.credits ∧
    (generate_ad_preview db ad_type storeOk).external_attempted = false ∧
    ad.is_draft = true ∧ usage_log.is_draft = true := by
  refine ⟨?_, ?_, ?_, ?_⟩
  · unfold generate_ad_preview
    cases db.profile <;> simp <;> split_ifs <;> rfl
  · unfold generate_ad_preview
    cases db.profile <;> simp <;> split_ifs <;> rfl
  · unfold generate_ad_preview at had
    cases hp : db.profile <;> rw [hp] at had <;> simp at had <;>
      revert had <;> split_ifs <;> intro had <;> simp_all
    rw [← had]
  · unfold generate_ad_preview at hlog
    cases hp : db.profile <;> rw [hp] at hlog <;> simp at hlog <;>
      revert hlog <;> split_ifs <;> intro hlog <;> simp_all
    rw [← hlog]

/-- Witness for `preview_no_ledger_mutation`: a successful `"text_ad"`
preview for an active profile. -/
theorem preview_no_ledger_mutation_witness :
    (generate_ad_preview ⟨some ⟨some "cus_123", "active"⟩, some ⟨1000, 1000, 0, 0⟩⟩
        "text_ad" true).credits = some ⟨1000, 1000, 0, 0⟩ ∧
    (generate_ad_preview ⟨some ⟨some "cus_123", "active"⟩, some ⟨1000, 1000, 0, 0⟩⟩
        "text_ad" true).external_attempted = false ∧
    (UserAds.mk "text_ad" true (some "text_ad,generated,draft")).is_draft = true ∧
    (UsageLog.mk "text_ad" 5 "preview_generation" true).is_draft = true :=
  preview_no_ledger_mutation ⟨some ⟨some "cus_123", "active"⟩, some ⟨1000, 1000, 0, 0⟩⟩
    "text_ad" true ⟨"text_ad", true, some "text_ad,generated,draft"⟩
    ⟨"text_ad", 5, "preview_generation", true⟩ rfl rfl rfl

/-- Helper: with no billing-account reference, `_handle_billing` never
attempts the external call and always returns normally. -/
theorem handle_billing_none_ok (credits : Credits) (C : Int) (o : StripeOutcome) :
    handle_billing credits C none o
      = ⟨.ok ⟨(if 0 < billing_shortage credits C then some (billing_shortage credits C)
               else none),
              billing_shortage credits C⟩, false⟩ := by
  unfold handle_billing
  by_cases h : 0 < billing_shortage credits C <;> simp [h, pyTruthyStr]

/-- C10: `save_ad` enforces no payment-status or profile-existence
precondition.  (i) No `save_ad` outcome ever carries `PROFILE_NOT_FOUND` or
`PAYMENT_INACTIVE`.  (ii) The outcome depends on the profile row only through
its `stripe_customer_id` — in particular `payment_status` is ignored.
(iii) With no profile row at all (billing-account reference treated as
`None`), a save of a valid draft pair still completes: it bills locally,
mutating the ledger by `_update_credits` with the recomputed shortage, and
attempts no external event. -/
theorem save_ad_no_payment_precondition :
    (∀ (db : SaveDb) (o : StripeOutcome),
        (save_ad db o).error_code ≠ some "PROFILE_NOT_FOUND" ∧
        (save_ad db o).error_code ≠ some "PAYMENT_INACTIVE") ∧
    (∀ (db : SaveDb) (p q : Profile) (o : StripeOutcome),
        p.stripe_customer_id = q.stripe_customer_id →
        save_ad { db with profile := some p } o
          = save_ad { db with profile := some q } o) ∧
    (∀ (db : SaveDb) (ad : UserAds) (usage_log : UsageLog) (credits : Credits)
        (o : StripeOutcome),
        db.profile = none → db.ad = some ad → ad.is_draft = true →
        db.usage_log = some usage_log → usage_log.is_draft = true →
        db.credits = some credits →
        (save_ad db o).error_code = none ∧
        (save_ad db o).external_attempted = false ∧
        (save_ad db o).credits
          = some (update_credits credits usage_log.credits_used
              (billing_shortage credits usage_log.credits_used))) := by
  refine ⟨?_, ?_, ?_⟩
  · intro db o
    constructor <;>
      · unfold save_ad
        (repeat' split) <;> simp <;> (repeat' split) <;> simp
  · intro db p q o h
    unfold save_ad
    simp only [h]
  · intro db ad usage_log credits o hprof had hdraft hlog hlogd hcred
    unfold save_ad
    rw [had, hprof, hlog, hcred]
    simp [hdraft, hlogd, handle_billing_none_ok]

/-- Witness for `save_ad_no_payment_precondition`: (i) at a concrete database
and outcome; (ii) for two profiles sharing a customer id but with
`payment_status` `"active"` vs `"past_due"`; (iii) saving a 25-credit draft
with no profile row and an empty allotment. -/
theorem save_ad_no_payment_precondition_witness :
    ((save_ad ⟨none, some ⟨1000, 0, 0, 0⟩,
        some ⟨"text_ad", true, some "text_ad,generated,draft"⟩,
        some ⟨"text_ad", 25, "preview_generation", true⟩⟩ .success).error_code
        ≠ some "PROFILE_NOT_FOUND" ∧
      (save_ad ⟨none, some ⟨1000, 0, 0, 0⟩,
        some ⟨"text_ad", true, some "text_ad,generated,draft"⟩,
        some ⟨"text_ad", 25, "preview_generation", true⟩⟩ .success).error_code
        ≠ some "PAYMENT_INACTIVE") ∧
    save_ad ⟨some ⟨some "cus_123", "active"⟩, some ⟨1000, 0, 0, 0⟩,
        some ⟨"text_ad", true, some "text_ad,generated,draft"⟩,
        some ⟨"text_ad", 25, "preview_generation", true⟩⟩ .success
      = save_ad ⟨some ⟨some "cus_123", "past_due"⟩, some ⟨1000, 0, 0, 0⟩,
          some ⟨"text_ad", true, some "text_ad,generated,draft"⟩,
          some ⟨"text_ad", 25, "preview_generation", true⟩⟩ .success ∧
    ((save_ad ⟨none, some ⟨1000, 0, 0, 0⟩,
        some ⟨"text_ad", true, some "text_ad,generated,draft"⟩,
        some ⟨"text_ad", 25, "preview_generation", true⟩⟩ .success).error_code = none ∧
      (save_ad ⟨none, some ⟨1000, 0, 0, 0⟩,
        some ⟨"text_ad", true, some "text_ad,generated,draft"⟩,
        some ⟨"text_ad", 25, "preview_generation", true⟩⟩ .success).external_attempted
        = false ∧
      (save_ad ⟨none, some ⟨1000, 0, 0, 0⟩,
        some ⟨"text_ad", true, some "text_ad,generated,draft"⟩,
        some ⟨"text_ad", 25, "preview_generation", true⟩⟩ .success).credits
        = some (update_credits ⟨1000, 0, 0, 0⟩
            (UsageLog.mk "text_ad" 25 "preview_generation" true).credits_used
            (billing_shortage ⟨1000, 0, 0, 0⟩
              (UsageLog.mk "text_ad" 25 "preview_generation" true).credits_used))) :=
  ⟨save_ad_no_payment_precondition.1 _ .success,
   save_ad_no_payment_precondition.2.1
     ⟨some ⟨some "cus_123", "active"⟩, some ⟨1000, 0, 0, 0⟩,
       some ⟨"text_ad", true, some "text_ad,generated,draft"⟩,
       some ⟨"text_ad", 25, "preview_generation", true⟩⟩
     ⟨some "cus_123", "active"⟩ ⟨some "cus_123", "past_due"⟩ .success rfl,
   save_ad_no_payment_precondition.2.2 _
     ⟨"text_ad", true, some "text_ad,generated,draft"⟩
     ⟨"text_ad", 25, "preview_generation", true⟩ ⟨1000, 0, 0, 0⟩ .success
     rfl rfl rfl rfl rfl rfl⟩
